import Mathlib

/-!
Verification of the beer-selection Telegram bot (src/main.py) against its
natural-language specification.

The Python program is embedded shallowly:

* the candidate beer list, the featured beer and the per-slot weighted draw
  of `button_callback` (lines 128-141) become pure functions, with the
  value of `random.random()` modelled as a rational in `[0,1)` and the
  index chosen by `random.choice` as a `Fin beers.length`;
* the classification branch (`zhiguli_count >= 3`, lines 159-176) becomes
  `image_path`; the spec's abstract `classify` contract is a second
  definition written from the spec's words, compared with the code branch;
* the message/photo/log side effects of the handlers become explicit event
  lists (`Ev`), with the Python `try`/`except` boundaries modelled by a
  raised-flag that the boundary consumes;
* the keyword dispatch of `handle_message` (lines 229-302) becomes the
  function `respond` on the lower-cased text, with Python's substring test
  `kw in text` embedded as `has_sub` / `in_text`;
* the liveness HTTP handler and the startup token check become `do_GET`
  and `process_start`.
-/

namespace BeerBot

/-- The candidate beer list of `button_callback` (src/main.py lines 128-129). -/
def beers : List String :=
  ["Крушовица", "Жатецкий гусь", "Хамовники венское",
   "Хамовники пильзенское", "Козел"]

/-- The featured beer (src/main.py line 135). -/
def zhiguli : String := "Жигули барное"

/-- One slot of the draw (src/main.py lines 134-137): if the sampled
uniform value `u` is below `0.3` emit the featured beer, else emit the
uniformly chosen candidate `beers[j]`.  `u` models `random.random()` as an
exact rational in `[0,1)`, `j` models the index picked by
`random.choice(beers)`. -/
def slot_draw (u : ℚ) (j : Fin beers.length) : String :=
  if u < 3/10 then zhiguli else beers.get j

/-- The 6-slot selection loop of `button_callback` (src/main.py lines
132-137): six independent slots, slot `i` using the sampled pair
`(us i, js i)`. -/
def selected_beers (us : Fin 6 → ℚ) (js : Fin 6 → Fin beers.length) :
    List String :=
  (List.finRange 6).map fun i => slot_draw (us i) (js i)

/-- The featured-beer count of a selection (src/main.py line 140). -/
def zhiguli_count (sel : List String) : ℕ := sel.count zhiguli

/-- Image chosen by the branch on `zhiguli_count >= 3`
(src/main.py lines 159-176). -/
def image_path (sel : List String) : String :=
  if 3 ≤ zhiguli_count sel then "zhiguli_happy.png" else "zhiguli_sad.png"

/-- Modelled from the spec: the abstract classification contract
`classify(selection) -> {favorable, unfavorable}` (spec section 4.2); the
code has no named `classify` function, only the branch embedded in
`image_path`. -/
def classify (sel : List String) : String :=
  if 3 ≤ zhiguli_count sel then "favorable" else "unfavorable"

/-- Boundary example selection of the spec (section 8): three featured
occurrences. -/
def sample_sel3 : List String :=
  ["Козел", "Жигули барное", "Жигули барное", "Крушовица",
   "Жигули барное", "Козел"]

/-- A selection with exactly two featured occurrences. -/
def sample_sel2 : List String :=
  ["Козел", "Жигули барное", "Жигули барное", "Крушовица",
   "Козел", "Козел"]

/-- Claim C1: a selection is classified "favorable" iff the featured beer
occurs at least 3 times, the happy-image branch is taken exactly on the
favorable classification, and at the boundary a count of exactly 3 is
favorable while a count of exactly 2 is unfavorable. -/
theorem classify_favorable_iff_count_ge_three :
    ∀ sel : List String,
      (classify sel = "favorable" ↔ 3 ≤ zhiguli_count sel)
      ∧ (image_path sel = "zhiguli_happy.png" ↔ classify sel = "favorable")
      ∧ (zhiguli_count sel = 3 → classify sel = "favorable")
      ∧ (zhiguli_count sel = 2 → classify sel = "unfavorable") := by
  intro sel
  refine ⟨?_, ?_, ?_, ?_⟩
  · unfold classify
    by_cases h : 3 ≤ zhiguli_count sel <;> simp [h]
  · unfold classify image_path
    by_cases h : 3 ≤ zhiguli_count sel <;> simp [h]
  · intro h
    unfold classify
    simp [h]
  · intro h
    unfold classify
    simp [h]

/-- Witness for C1 at the spec's boundary scenarios: count 3 gives
"favorable", count 2 gives "unfavorable". -/
theorem classify_boundary_witness :
    classify sample_sel3 = "favorable"
    ∧ classify sample_sel2 = "unfavorable" :=
  ⟨(classify_favorable_iff_count_ge_three sample_sel3).2.2.1 (by decide),
   (classify_favorable_iff_count_ge_three sample_sel2).2.2.2 (by decide)⟩

/-- Claim C2: every draw produces exactly 6 identifiers, each of them the
featured beer or one of the 5 candidates. -/
theorem selected_beers_length_and_membership :
    ∀ (us : Fin 6 → ℚ) (js : Fin 6 → Fin beers.length),
      (selected_beers us js).length = 6
      ∧ ∀ b ∈ selected_beers us js, b = zhiguli ∨ b ∈ beers := by
  intro us js
  constructor
  · simp [selected_beers]
  · intro b hb
    simp only [selected_beers, List.mem_map] at hb
    obtain ⟨i, _, hi⟩ := hb
    unfold slot_draw at hi
    by_cases h : us i < 3/10
    · left
      simp [h] at hi
      exact hi.symm
    · right
      rw [if_neg h] at hi
      exact hi ▸ List.get_mem beers (js i).1 (js i).2

/-- Witness for C2 at a concrete draw: all slots below the threshold, so
the selection is six featured beers. -/
theorem selected_beers_witness :
    (selected_beers (fun _ => 0) (fun _ => ⟨0, by decide⟩)).length = 6
    ∧ (zhiguli = zhiguli ∨ zhiguli ∈ beers) :=
  ⟨(selected_beers_length_and_membership (fun _ => 0)
      (fun _ => ⟨0, by decide⟩)).1,
   (selected_beers_length_and_membership (fun _ => 0)
      (fun _ => ⟨0, by decide⟩)).2 zhiguli
      (by simp [selected_beers, slot_draw, List.finRange])⟩

/-- Claim C3: per-slot distribution of the draw, with `random.random()`
idealised as a uniform value on the real interval `[0,1)` and
`random.choice` as a uniform index.  The featured branch is taken exactly
on the sampled values below `3/10`, a set of measure `3/10`; a fixed
candidate `beers.get k` is emitted exactly when the sampled value is at
least `3/10` (a set of measure `7/10`) and the uniformly chosen index is
`k` (probability `1 / beers.length`), giving `7/10 * 1/5 = 0.14`; and the
featured beer is not a member of the candidate list used by the uniform
branch. -/
theorem slot_distribution_exact :
    (∀ (u : ℚ) (j : Fin beers.length), slot_draw u j = zhiguli ↔ u < 3/10)
    ∧ (∀ (u : ℚ) (j k : Fin beers.length),
        slot_draw u j = beers.get k ↔ (3/10 ≤ u ∧ j = k))
    ∧ zhiguli ∉ beers
    ∧ MeasureTheory.volume {x : ℝ | x ∈ Set.Ico (0:ℝ) 1 ∧ x < 3/10}
        = ENNReal.ofReal (3/10)
    ∧ (MeasureTheory.volume {x : ℝ | x ∈ Set.Ico (0:ℝ) 1 ∧ ¬ x < 3/10}).toReal
        / (beers.length : ℝ) = 14/100 := by
  have hnotmem : zhiguli ∉ beers := by decide
  have hnd : beers.Nodup := by decide
  refine ⟨?_, ?_, hnotmem, ?_, ?_⟩
  · intro u j
    unfold slot_draw
    by_cases h : u < 3/10
    · simp [h]
    · simp only [if_neg h]
      constructor
      · intro hget
        exact absurd (hget ▸ List.get_mem beers j.1 j.2) hnotmem
      · intro hlt
        exact absurd hlt h
  · intro u j k
    unfold slot_draw
    by_cases h : u < 3/10
    · simp only [if_pos h]
      constructor
      · intro hz
        exact absurd (hz.symm ▸ List.get_mem beers k.1 k.2) hnotmem
      · rintro ⟨hle, -⟩
        exact absurd h (not_lt.mpr hle)
    · simp only [if_neg h]
      constructor
      · intro hget
        exact ⟨not_lt.mp h, hnd.get_inj_iff.mp hget⟩
      · rintro ⟨-, rfl⟩
        rfl
  · have h : {x : ℝ | x ∈ Set.Ico (0:ℝ) 1 ∧ x < 3/10}
        = Set.Ico (0:ℝ) (3/10) := by
      ext x
      simp only [Set.mem_setOf_eq, Set.mem_Ico]
      constructor
      · rintro ⟨⟨h0, -⟩, h3⟩
        exact ⟨h0, h3⟩
      · rintro ⟨h0, h3⟩
        exact ⟨⟨h0, by linarith⟩, h3⟩
    rw [h, Real.volume_Ico]
    norm_num
  · have h : {x : ℝ | x ∈ Set.Ico (0:ℝ) 1 ∧ ¬ x < 3/10}
        = Set.Ico (3/10 : ℝ) 1 := by
      ext x
      simp only [Set.mem_setOf_eq, Set.mem_Ico, not_lt]
      constructor
      · rintro ⟨⟨-, h1⟩, h3⟩
        exact ⟨h3, h1⟩
      · rintro ⟨h3, h1⟩
        exact ⟨⟨by linarith, h1⟩, h3⟩
    rw [h, Real.volume_Ico, ENNReal.toReal_ofReal (by norm_num)]
    norm_num [show beers.length = 5 from rfl]

/-- Witness for C3 at concrete slot samples: a value below the threshold
yields the featured beer, a value above it with index 0 yields the first
candidate. -/
theorem slot_distribution_witness :
    slot_draw (1/5) ⟨0, by decide⟩ = zhiguli
    ∧ slot_draw (1/2) ⟨0, by decide⟩ = beers.get ⟨0, by decide⟩ :=
  ⟨(slot_distribution_exact.1 (1/5) ⟨0, by decide⟩).mpr (by norm_num),
   (slot_distribution_exact.2.1 (1/2) ⟨0, by decide⟩ ⟨0, by decide⟩).mpr
     ⟨by norm_num, rfl⟩⟩

/-- Python substring containment `kw in t` on explicit character lists:
true iff `kw` occurs contiguously in `t` (the empty list occurs in
everything). -/
def has_sub (kw : List Char) : List Char → Bool
  | [] => kw.isEmpty
  | c :: ts => kw.isPrefixOf (c :: ts) || has_sub kw ts

/-- Python substring containment `kw in t` on strings. -/
def in_text (kw t : String) : Bool := has_sub kw.data t.data

/-- Reply of the greeting branch (src/main.py line 230). -/
def greeting_text : String := "Привет! Чем могу помочь?"

/-- Reply of the gratitude branch (src/main.py line 233). -/
def thanks_text : String := "Всегда рад помочь!"

/-- Reply of the farewell branch (src/main.py line 236). -/
def farewell_text : String := "До новых встреч! Надеюсь, был полезен."

/-- Reply of the IPA branch (src/main.py lines 240-244). -/
def ipa_text : String :=
  "India Pale Ale (IPA) - это сорт пива с ярко выраженным хмелевым вкусом и ароматом. Первоначально был создан для экспорта в Индию, отсюда и название. Характеризуется высоким содержанием хмеля, который использовался как консервант."

/-- Reply of the lager branch (src/main.py lines 247-251). -/
def lager_text : String :=
  "Лагер - это пиво низового брожения, которое выдерживается при низких температурах. Процесс ферментации происходит в нижней части чана, отсюда и название \x27низовое\x27. Лагеры обычно более легкие и освежающие, чем эли."

/-- Reply of the ale branch (src/main.py lines 254-258). -/
def ale_text : String :=
  "Эль - это пиво верхового брожения. Процесс ферментации происходит при более высоких температурах, чем у лагера, и дрожжи работают в верхней части чана. Эли обычно имеют более насыщенный, фруктовый вкус и аромат."

/-- Reply of the stout branch (src/main.py lines 261-265). -/
def stout_text : String :=
  "Стаут - это тёмное пиво, приготовленное с использованием жареного ячменя. Имеет богатый, плотный вкус с нотами кофе, шоколада и солода. Изначально термин \x27стаут\x27 означал просто \x27крепкий пиво\x27."

/-- Reply of the porter branch (src/main.py lines 268-272). -/
def porter_text : String :=
  "Портер - это тёмное пиво, предшественник стаута. Получил популярность среди лондонских носильщиков (porter в переводе с английского - носильщик). Характеризуется сложным вкусом с нотами карамели, шоколада и иногда лёгкой дымностью."

/-- Reply of the wheat branch (src/main.py lines 275-279). -/
def wheat_text : String :=
  "Пшеничное пиво производится с использованием значительной доли пшеничного солода. Обычно легкое, освежающее, с высокой карбонизацией. Немецкие сорта (Weissbier) часто имеют ноты банана и гвоздики из-за особых штаммов дрожжей."

/-- Reply of the alcohol-content branch (src/main.py lines 282-287). -/
def alcohol_text : String :=
  "Содержание алкоголя в пиве обычно составляет от 3% до 12%. Легкое пиво может содержать 3-4%, обычные лагеры - около 5%, крафтовые сорта часто имеют 6-9%, а некоторые специальные сорта могут достигать 12% и выше. Помните о ответственном потреблении!"

/-- Reply of the food-pairing branch (src/main.py lines 290-295). -/
def snack_text : String :=
  "Традиционные закуски к пиву зависят от страны и сорта пива. К лагерам хорошо подходят снеки, орешки, легкие сыры. К элям - более острые и пикантные закуски. К стаутам - шоколад и десерты. В Германии популярны колбаски и претцели, в Бельгии - сыры и морепродукты."

/-- Reply of the fallback branch (src/main.py lines 299-302). -/
def fallback_text : String :=
  "Извините, я не совсем понял ваш вопрос. Попробуйте сформулировать иначе или воспользуйтесь командой /menu, чтобы увидеть доступные темы."

/-- The keyword dispatch of `handle_message` (src/main.py lines 229-302)
on the already lower-cased message text: the Python `elif` chain as nested
conditionals, returning the text of the single reply sent. -/
def respond (t : String) : String :=
  if in_text "привет" t || in_text "здравствуй" t then greeting_text
  else if in_text "спасибо" t || in_text "благодар" t then thanks_text
  else if in_text "пока" t || in_text "до свидания" t then farewell_text
  else if in_text "ipa" t || in_text "ипа" t then ipa_text
  else if in_text "лагер" t then lager_text
  else if in_text "эль" t then ale_text
  else if in_text "стаут" t then stout_text
  else if in_text "портер" t then porter_text
  else if in_text "пшеничное" t then wheat_text
  else if in_text "алкоголь" t || in_text "градус" t then alcohol_text
  else if in_text "закуска" t || in_text "закусывать" t then snack_text
  else fallback_text

/-- Modelled from the spec: the ordered keyword groups of section 4.1
(greeting, gratitude, farewell, IPA, lager, ale, stout, porter, wheat,
alcohol-content, food-pairing), each a guard over the lower-cased text
paired with its reply. -/
def keyword_groups : List ((String → Bool) × String) :=
  [(fun t => in_text "привет" t || in_text "здравствуй" t, greeting_text),
   (fun t => in_text "спасибо" t || in_text "благодар" t, thanks_text),
   (fun t => in_text "пока" t || in_text "до свидания" t, farewell_text),
   (fun t => in_text "ipa" t || in_text "ипа" t, ipa_text),
   (fun t => in_text "лагер" t, lager_text),
   (fun t => in_text "эль" t, ale_text),
   (fun t => in_text "стаут" t, stout_text),
   (fun t => in_text "портер" t, porter_text),
   (fun t => in_text "пшеничное" t, wheat_text),
   (fun t => in_text "алкоголь" t || in_text "градус" t, alcohol_text),
   (fun t => in_text "закуска" t || in_text "закусывать" t, snack_text)]

/-- Modelled from the spec: first-match dispatch over ordered keyword
groups, falling back to the fallback reply (spec section 4.1: the FIRST
matching group in priority order wins). -/
def first_match : List ((String → Bool) × String) → String → String
  | [], _ => fallback_text
  | g :: gs, t => if g.1 t then g.2 else first_match gs t

/-- The list of replies sent by one run of the `handle_message` dispatch
(src/main.py lines 229-302) on the lower-cased text: every branch of the
`elif` chain sends exactly one reply. -/
def handle_message_replies (t : String) : List String :=
  if in_text "привет" t || in_text "здравствуй" t then [greeting_text]
  else if in_text "спасибо" t || in_text "благодар" t then [thanks_text]
  else if in_text "пока" t || in_text "до свидания" t then [farewell_text]
  else if in_text "ipa" t || in_text "ипа" t then [ipa_text]
  else if in_text "лагер" t then [lager_text]
  else if in_text "эль" t then [ale_text]
  else if in_text "стаут" t then [stout_text]
  else if in_text "портер" t then [porter_text]
  else if in_text "пшеничное" t then [wheat_text]
  else if in_text "алкоголь" t || in_text "градус" t then [alcohol_text]
  else if in_text "закуска" t || in_text "закусывать" t then [snack_text]
  else [fallback_text]

/-- Claim C4: any lower-cased text containing "привет" or "здравствуй"
gets the greeting reply regardless of other keyword matches, and in
general the dispatch agrees with first-match over the fixed priority
order of keyword groups. -/
theorem greeting_precedence_and_order :
    (∀ t : String,
      (in_text "привет" t || in_text "здравствуй" t) = true →
        respond t = greeting_text)
    ∧ (∀ t : String, respond t = first_match keyword_groups t) := by
  constructor
  · intro t h
    unfold respond
    rw [h]
    exact if_pos rfl
  · intro t
    unfold respond
    simp only [keyword_groups, first_match]

/-- Witness for C4: a text containing both a greeting keyword and beer
keywords still gets the greeting reply. -/
theorem greeting_precedence_witness :
    respond "привет, что такое лагер и стаут?" = greeting_text :=
  greeting_precedence_and_order.1 "привет, что такое лагер и стаут?" (by decide)

/-- Claim C10: every message that reaches the dispatch gets exactly one
reply, namely the response of the matched branch. -/
theorem handle_message_exactly_one_reply :
    ∀ t : String,
      (handle_message_replies t).length = 1
      ∧ handle_message_replies t = [respond t] := by
  intro t
  have h : handle_message_replies t = [respond t] := by
    unfold handle_message_replies respond
    simp only [apply_ite (fun x : String => ([x] : List String))]
  exact ⟨h ▸ rfl, h⟩

/-- Side effects of the handlers: outbound chat messages (plain text,
message edits, photo transmissions) and log lines.  The Python log line
that formats `os.listdir(BASE_DIR)` is modelled structurally as
`logDirListing`. -/
inductive Ev where
  | sendText (s : String)
  | editText (s : String)
  | sendPhoto (path : String)
  | logInfo (s : String)
  | logError (s : String)
  | logDirListing (dir : List String)
deriving DecidableEq

/-- Numbered beer lines of the selection message (src/main.py lines
145-146): Python `enumerate(selected_beers, 1)` appends one numbered line
per beer. -/
def beer_lines : ℕ → List String → String
  | _, [] => ""
  | n, b :: bs => toString n ++ ". " ++ b ++ "\n" ++ beer_lines (n + 1) bs

/-- The full selection message of `button_callback` (src/main.py lines
144-148): header, numbered lines starting at 1, blank line, fixed closing
line. -/
def beer_message (sel : List String) : String :=
  "Твой выбор, сталкер 🍺:\n\n" ++ beer_lines 1 sel
    ++ "\nНе дай Зоне себя победить! ☢️"

/-- Happy image file name (src/main.py line 161). -/
def happy_image_path : String := "zhiguli_happy.png"

/-- Sad image file name (src/main.py line 176). -/
def sad_image_path : String := "zhiguli_sad.png"

/-- Fallback text when the image file is missing (src/main.py lines
173 and 188). -/
def apology_not_found : String := "Извините, изображение не найдено."

/-- Fallback text of the image-sending `except` clause
(src/main.py line 191). -/
def apology_send_error : String := "Произошла ошибка при отправке изображения."

/-- Body of one image branch of `button_callback` (src/main.py lines
160-188), before the surrounding `except`: log the attempt; if the file
exists, transmit the photo — which may raise, modelled by `send_raises`,
in which case the trailing success log is not reached; otherwise log the
missing file at error level, log the directory listing, and send the
plain-text fallback.  Returns the emitted events together with the flag
telling whether the body raised. -/
def image_branch_body (lab cap path : String) (dir : List String)
    (file_exists send_raises : Bool) : List Ev × Bool :=
  (Ev.logInfo ("Attempting to send " ++ lab ++ " image from: " ++ path)
    :: (if file_exists then
          if send_raises then
            [Ev.logInfo (cap ++ " image file exists"), Ev.sendPhoto path]
          else
            [Ev.logInfo (cap ++ " image file exists"), Ev.sendPhoto path,
             Ev.logInfo (cap ++ " image sent successfully")]
        else
          [Ev.logError (cap ++ " image file not found at " ++ path),
           Ev.logDirListing dir,
           Ev.sendText apology_not_found]),
   file_exists && send_raises)

/-- The media-emitting step of `button_callback` (src/main.py lines
158-191): the branch on the featured count, wrapped in the `try`/`except`
that catches a raise during photo transmission, logs it, and sends a
plain-text apology instead (the interpolated exception text of that log
line is elided).  The second component tells whether a failure escaped to
the caller. -/
def send_image (count : ℕ) (dir : List String)
    (file_exists send_raises : Bool) : List Ev × Bool :=
  match (if 3 ≤ count then
           image_branch_body "happy" "Happy" happy_image_path dir
             file_exists send_raises
         else
           image_branch_body "sad" "Sad" sad_image_path dir
             file_exists send_raises) with
  | (evs, true) =>
      (evs ++ [Ev.logError "Error sending image",
               Ev.sendText apology_send_error], false)
  | (evs, false) => (evs, false)

/-- The `try_luck` path of `button_callback` (src/main.py lines 125-193):
edit the pressed message into the formatted selection text, log it, then
run the media-emitting step. -/
def try_luck_events (sel dir : List String)
    (file_exists send_raises : Bool) : List Ev :=
  Ev.editText (beer_message sel) :: Ev.logInfo "Beer list message sent"
    :: (send_image (zhiguli_count sel) dir file_exists send_raises).1

/-- Event predicate: an actual photo transmission. -/
def is_photo (e : Ev) : Bool :=
  match e with
  | Ev.sendPhoto _ => true
  | _ => false

/-- Event predicate: the attempt log line that opens the media-emitting
step (src/main.py lines 162 and 177). -/
def is_attempt_log (e : Ev) : Bool :=
  match e with
  | Ev.logInfo s =>
      s == "Attempting to send " ++ "happy" ++ " image from: " ++ happy_image_path
      || s == "Attempting to send " ++ "sad" ++ " image from: " ++ sad_image_path
  | _ => false

/-- Claim C5: on `try_luck` the first outbound message is the text listing
the 6 selected identifiers, 1-indexed, each on its own line, followed by
the fixed closing line; after that text the media-emitting step is
attempted exactly once (its attempt log line occurs exactly once in the
remaining events), and at most one actual photo transmission happens —
exactly one when the chosen image file exists. -/
theorem try_luck_message_format_and_order :
    ∀ (b1 b2 b3 b4 b5 b6 : String) (dir : List String)
      (file_exists send_raises : Bool),
      beer_message [b1, b2, b3, b4, b5, b6]
        = "Твой выбор, сталкер 🍺:\n\n1. " ++ b1 ++ "\n2. " ++ b2
            ++ "\n3. " ++ b3 ++ "\n4. " ++ b4 ++ "\n5. " ++ b5 ++ "\n6. " ++ b6
            ++ "\n\nНе дай Зоне себя победить! ☢️"
      ∧ ∃ rest,
          try_luck_events [b1, b2, b3, b4, b5, b6] dir file_exists send_raises
            = Ev.editText (beer_message [b1, b2, b3, b4, b5, b6])
              :: Ev.logInfo "Beer list message sent" :: rest
          ∧ rest.countP is_attempt_log = 1
          ∧ rest.countP is_photo = (if file_exists then 1 else 0) := by
  intro b1 b2 b3 b4 b5 b6 dir fe sr
  constructor
  · apply String.ext
    simp only [beer_message, beer_lines, String.data_append,
      show toString (1:ℕ) = "1" from rfl, show toString (2:ℕ) = "2" from rfl,
      show toString (3:ℕ) = "3" from rfl, show toString (4:ℕ) = "4" from rfl,
      show toString (5:ℕ) = "5" from rfl, show toString (6:ℕ) = "6" from rfl]
    simp [List.append_assoc]
  · unfold try_luck_events send_image
    by_cases hc : 3 ≤ zhiguli_count [b1, b2, b3, b4, b5, b6]
    · rw [if_pos hc]
      cases fe <;> cases sr <;> exact ⟨_, rfl, rfl, rfl⟩
    · rw [if_neg hc]
      cases fe <;> cases sr <;> exact ⟨_, rfl, rfl, rfl⟩

/-- Witness for C5 at the spec's concrete favorable selection with an
existing image file and no transmission failure. -/
theorem try_luck_format_witness :
    beer_message ["Козел", "Жигули барное", "Жигули барное", "Крушовица",
        "Жигули барное", "Козел"]
      = "Твой выбор, сталкер 🍺:\n\n1. " ++ "Козел" ++ "\n2. " ++ "Жигули барное"
          ++ "\n3. " ++ "Жигули барное" ++ "\n4. " ++ "Крушовица"
          ++ "\n5. " ++ "Жигули барное" ++ "\n6. " ++ "Козел"
          ++ "\n\nНе дай Зоне себя победить! ☢️" :=
  (try_luck_message_format_and_order "Козел" "Жигули барное" "Жигули барное"
    "Крушовица" "Жигули барное" "Козел" [] true false).1

/-- Claim C6: the media-emitting step never propagates a failure to the
caller; when the image file is missing it sends the plain-text apology,
logs an error, and logs the directory listing; when the transmission
itself raises it sends the error apology and logs the failure. -/
theorem media_failure_degrades :
    ∀ (count : ℕ) (dir : List String) (file_exists send_raises : Bool),
      (send_image count dir file_exists send_raises).2 = false
      ∧ (file_exists = false →
          Ev.sendText apology_not_found
              ∈ (send_image count dir file_exists send_raises).1
          ∧ (∃ s, Ev.logError s
              ∈ (send_image count dir file_exists send_raises).1)
          ∧ Ev.logDirListing dir
              ∈ (send_image count dir file_exists send_raises).1)
      ∧ (file_exists = true → send_raises = true →
          Ev.sendText apology_send_error
              ∈ (send_image count dir file_exists send_raises).1
          ∧ Ev.logError "Error sending image"
              ∈ (send_image count dir file_exists send_raises).1) := by
  intro count dir fe sr
  unfold send_image
  by_cases hc : 3 ≤ count
  · rw [if_pos hc]
    cases fe <;> cases sr <;>
      refine ⟨rfl, ?_, ?_⟩ <;> intro h <;> (try intro h2) <;>
        simp_all [image_branch_body]
  · rw [if_neg hc]
    cases fe <;> cases sr <;>
      refine ⟨rfl, ?_, ?_⟩ <;> intro h <;> (try intro h2) <;>
        simp_all [image_branch_body]

/-- Witness for C6: with a missing image file the step emits the
plain-text apology, an error log and the directory listing, and raises
nothing. -/
theorem media_failure_witness :
    (send_image 3 ["main.py"] false false).2 = false
    ∧ Ev.sendText apology_not_found ∈ (send_image 3 ["main.py"] false false).1 :=
  ⟨(media_failure_degrades 3 ["main.py"] false false).1,
   ((media_failure_degrades 3 ["main.py"] false false).2.1 rfl).1⟩

/-- An HTTP response of the liveness web server. -/
structure HttpResponse where
  status : ℕ
  content_type : String
  body : String

/-- The liveness handler `Handler.do_GET` (src/main.py lines 42-46): it
never inspects the request path. -/
def do_GET (path : String) : HttpResponse :=
  { status := 200, content_type := "text/plain",
    body := "Pivnoi Vopros Bot is running!" }

/-- Claim C8: every GET, regardless of path, yields status 200,
content-type text/plain and the same fixed body. -/
theorem liveness_get_fixed_response :
    ∀ path : String,
      (do_GET path).status = 200
      ∧ (do_GET path).content_type = "text/plain"
      ∧ (do_GET path).body = "Pivnoi Vopros Bot is running!"
      ∧ ∀ q : String, do_GET path = do_GET q := by
  intro p
  exact ⟨rfl, rfl, rfl, fun q => rfl⟩

/-- Outcome of starting the process: exit code if it aborted at module
load, whether the liveness web-server thread and the bot polling loop
were started, and the startup log lines. -/
structure ProcOutcome where
  exit_code : Option ℕ
  web_started : Bool
  polling_started : Bool
  logs : List Ev

/-- The startup token check and launch sequence (src/main.py lines 32-37
and 309-356): `os.getenv("BOT_TOKEN", "")` yields the empty string when
the variable is absent, Python falsiness of the empty string triggers
`exit(1)` before `main` ever runs; otherwise `main` starts the web-server
thread and the polling loop. -/
def process_start (env_token : Option String) : ProcOutcome :=
  if env_token.getD "" = "" then
    { exit_code := some 1, web_started := false, polling_started := false,
      logs := [Ev.logError
        "Bot token not found. Please set the BOT_TOKEN environment variable."] }
  else
    { exit_code := none, web_started := true, polling_started := true,
      logs := [Ev.logInfo "BOT_TOKEN found, proceeding with initialization"] }

/-- Claim C7: an absent or empty token makes the process log an error and
exit with code 1 before either the web-server thread or the polling loop
is started. -/
theorem missing_token_exits :
    ∀ env_token : Option String, (env_token = none ∨ env_token = some "") →
      (process_start env_token).exit_code = some 1
      ∧ (process_start env_token).web_started = false
      ∧ (process_start env_token).polling_started = false
      ∧ (∃ s, Ev.logError s ∈ (process_start env_token).logs) := by
  intro env h
  rcases h with rfl | rfl <;>
    exact ⟨rfl, rfl, rfl, _, List.mem_singleton.mpr rfl⟩

/-- Witness for C7 with the token variable absent. -/
theorem missing_token_witness :
    (process_start none).exit_code = some 1
    ∧ (process_start none).web_started = false :=
  ⟨(missing_token_exits none (Or.inl rfl)).1,
   (missing_token_exits none (Or.inl rfl)).2.1⟩

/-- Welcome text of `/start` (src/main.py line 67). -/
def start_text : String :=
  "Привет, сталкер. Замотался? Присядь, выпей кружечку холодненького. Сейчас сделаем тебе случайную подборку из 6 зелий."

/-- Apology of the `/start` exception branch (src/main.py line 75). -/
def start_apology : String :=
  "Произошла ошибка при обработке команды /start. Пожалуйста, попробуйте позже."

/-- Help text of `/help` (src/main.py lines 83-89). -/
def help_text : String :=
  "Вот команды, которые я понимаю:\n/start - Начать разговор\n/help - Показать это сообщение\n/menu - Показать меню опций\n\nТакже вы можете просто написать ваш вопрос о пиве, и я постараюсь ответить!"

/-- Apology of the `button_callback` exception branch
(src/main.py line 218). -/
def button_apology : String := "Произошла ошибка при обработке запроса."

/-- The `/start` handler with its `try`/`except` boundary (src/main.py
lines 59-77).  `raises` models an exception in the body; the boundary
logs it and tries to send the apology, which may itself raise
(`apology_raises`), in which case only a second error is logged.  The
second component tells whether an exception escaped the handler. -/
def start_handler (raises apology_raises : Bool) : List Ev × Bool :=
  if raises then
    (Ev.logError "Error in start command"
      :: (if apology_raises then
            [Ev.logError "Could not send error message to user"]
          else [Ev.sendText start_apology]), false)
  else
    ([Ev.sendText start_text,
      Ev.logInfo "Start command processed successfully"], false)

/-- The `/help` handler with its `try`/`except` boundary (src/main.py
lines 79-93): on an exception it only logs — no apology is sent. -/
def help_handler (raises : Bool) : List Ev × Bool :=
  if raises then
    ([Ev.logError "Error in help command"], false)
  else
    ([Ev.sendText help_text,
      Ev.logInfo "Help command processed successfully"], false)

/-- The free-text handler with its `try`/`except` boundary (src/main.py
lines 222-307) on the lower-cased text: on an exception it only logs — no
apology is sent. -/
def handle_message_handler (t : String) (raises : Bool) : List Ev × Bool :=
  if raises then
    ([Ev.logError "Error in handle_message"], false)
  else
    ((handle_message_replies t).map Ev.sendText
      ++ [Ev.logInfo "Message handled successfully"], false)

/-- The `try`/`except` boundary of `button_callback` (src/main.py lines
115-220) around an arbitrary body event list: on an exception it logs and
tries to send the apology, which may itself raise. -/
def button_callback_boundary (body : List Ev) (raises apology_raises : Bool) :
    List Ev × Bool :=
  if raises then
    (Ev.logError "Error in button_callback"
      :: (if apology_raises then
            [Ev.logError "Could not send error message to user"]
          else [Ev.sendText button_apology]), false)
  else (body, false)

/-- Event predicate: any outbound chat message. -/
def is_send (e : Ev) : Bool :=
  match e with
  | Ev.sendText _ => true
  | Ev.editText _ => true
  | Ev.sendPhoto _ => true
  | _ => false

/-- Counterexample to claim C9 as stated: when the free-text handler body
raises, the boundary (src/main.py lines 306-307) only logs — the user is
sent nothing at all, although sending an apology would have been feasible
(no send failure is in play); the `/help` boundary (lines 92-93) behaves
the same way. -/
theorem handle_message_no_apology_cex :
    (handle_message_handler "привет" true).1.countP is_send = 0
    ∧ (help_handler true).1.countP is_send = 0 := by
  decide

/-- Claim C9 (amended): every exception raised in a handler body is
caught at the handler boundary and logged, and no handler ever lets an
exception escape to the update loop; the `/start` and `button_callback`
boundaries additionally attempt the generic apology (falling back to a
second log line when that send also fails), while the `/help` and
free-text boundaries only log and send nothing. -/
theorem handlers_catch_and_log :
    ∀ (t : String) (body : List Ev) (raises apology_raises : Bool),
      (start_handler raises apology_raises).2 = false
      ∧ (help_handler raises).2 = false
      ∧ (handle_message_handler t raises).2 = false
      ∧ (button_callback_boundary body raises apology_raises).2 = false
      ∧ (raises = true →
          (∃ s, Ev.logError s ∈ (start_handler raises apology_raises).1)
          ∧ (∃ s, Ev.logError s ∈ (help_handler raises).1)
          ∧ (∃ s, Ev.logError s ∈ (handle_message_handler t raises).1)
          ∧ (∃ s, Ev.logError s
              ∈ (button_callback_boundary body raises apology_raises).1))
      ∧ (raises = true → apology_raises = false →
          Ev.sendText start_apology ∈ (start_handler raises apology_raises).1
          ∧ Ev.sendText button_apology
              ∈ (button_callback_boundary body raises apology_raises).1)
      ∧ (raises = true →
          (help_handler raises).1.countP is_send = 0
          ∧ (handle_message_handler t raises).1.countP is_send = 0) := by
  intro t body raises ar
  cases raises <;> cases ar <;>
    simp [start_handler, help_handler, handle_message_handler,
      button_callback_boundary, is_send]

/-- Witness for the amended C9: with a raising body and a working send,
the `/start` boundary emits its apology and the `/help` boundary sends
nothing. -/
theorem handlers_catch_witness :
    Ev.sendText start_apology ∈ (start_handler true false).1
    ∧ (help_handler true).1.countP is_send = 0 :=
  ⟨((handlers_catch_and_log "привет" [] true false).2.2.2.2.2.1 rfl rfl).1,
   ((handlers_catch_and_log "привет" [] true false).2.2.2.2.2.2 rfl).1⟩

end BeerBot
